import Mathlib

/-!
Verification development for the two example scripts of this repository:

* `1.5/_downloads/.../xdawn_denoising.py`  (the "XDAWN script")
* `mne-gui-addons/_downloads/.../volume_stc_group_study.py`  (the "group-study script")

Both scripts are straight-line Python programs whose every non-trivial
operation is a call into the external MNE library (and its GUI add-on).
We embed each script shallowly as the sequence of library calls it makes:
an `Ev` value records one call together with the identities of the library
objects it consumes and produces.  Object identities are natural numbers
allocated sequentially, mirroring the order in which the Python scripts
bind fresh library objects.  The group-study script's two loops (over the
subjects `range(1, 4)` and over the frequencies `range(freqs.size)`) are
embedded as folds over the corresponding index lists, with the Python
variable rebinding (`inverse_operator`, `stcs`, `baseline_cov`) made
explicit in the fold state.
-/

/-- A Python value held in one of the script's variables or accumulator
lists: either a reference to a library object (identified by its allocation
number) or a plain Python list of object references (for `stcs = list()`). -/
inductive PyV where
  | obj (id : ℕ)
  | listV (ids : List ℕ)
deriving DecidableEq, Repr

/-- The frequency array of the group-study script:
`np.logspace(np.log10(12), np.log10(30), 9)` is `n` logarithmically spaced
points running from `lo` to `hi`. -/
inductive FreqSpec where
  | logspace (lo hi : ℚ) (n : ℕ)
deriving DecidableEq, Repr

/-- Number of frequencies described (`freqs.size` in the script). -/
def FreqSpec.size : FreqSpec → ℕ
  | .logspace _ _ n => n

/-- The `n_cycles` argument of `tfr_morlet`: the frequency array divided
elementwise by `d` (the script passes `n_cycles=freqs / 2`). -/
inductive NCycles where
  | freqsDiv (fs : FreqSpec) (d : ℚ)
deriving DecidableEq, Repr

/-- The `group` keyword of `view_vol_stc`: `group=True` for the first viewer,
`group="power"` for the second. -/
inductive GroupArg where
  | asBool (b : Bool)
  | power
deriving DecidableEq, Repr

set_option maxHeartbeats 1600000 in
/-- One library call (or built-in effect) made by a script.  The first `ℕ`
field of a constructor named `ret` is the identity of the object the call
returns; the remaining `ℕ` fields are identities of objects passed in.
The last six constructors (`spawnThread` … `writeLocalFile`) are effects a
Python script could in principle perform directly (threading, multiprocessing,
asyncio, `sys.argv`, sockets, `open(..., "w")`); neither script contains any
such statement, so no embedded trace contains them. -/
inductive Ev where
  | printDoc
  | printSubject (sub : ℕ)
  | dataPath (ret : ℕ)
  | fetchFsaverage (ret : ℕ)
  | readSourceSpaces (ret : ℕ) (path : String)
  | readBemSolution (ret : ℕ) (path : String)
  | makeStandardMontage (ret : ℕ) (name : String)
  | loadDataEEGBCI (ret : ℕ) (subject : ℕ) (runs : List ℕ) (updatePath : Bool)
  | readRaw (ret : ℕ) (fnames : ℕ) (runIdx : ℕ) (preload : Bool)
  | readRawFif (ret : ℕ) (path : String) (preload : Bool)
  | readEvents (ret : ℕ) (path : String)
  | concatenateRaws (ret : ℕ) (parts : List ℕ)
  | standardize (raw : ℕ)
  | setMontage (raw : ℕ) (montage : ℕ)
  | setBads (raw : ℕ) (bads : List String)
  | eventsFromAnnot (ret : ℕ) (raw : ℕ)
  | pickTypes (ret : ℕ) (info : ℕ)
  | filterRaw (raw : ℕ) (lFreq hFreq : ℚ) (design : String)
  | filterEpochs (epochs : ℕ) (lFreq : Option ℚ) (hFreq : Option ℚ)
  | makeEpochs (ret : ℕ) (raw : ℕ) (events : ℕ) (picks : ℕ) (tmin tmax : ℚ)
      (proj preload : Bool)
  | selectCond (ret : ℕ) (epochs : ℕ) (cond : String)
  | setEegReference (epochs : ℕ)
  | getRejectionThreshold (ret : ℕ) (epochs : ℕ)
  | dropBad (epochs : ℕ) (reject : ℕ)
  | decimate (inst : ℕ) (factor : ℕ)
  | computeRawCovariance (ret : ℕ) (raw : ℕ) (picks : ℕ)
  | computeCovariance (ret : ℕ) (epochs : ℕ) (tmax : ℚ)
  | computeRank (ret : ℕ) (epochs : ℕ) (tol : ℚ) (tolKind : String)
  | xdawnCreate (ret : ℕ) (nComponents : ℕ) (signalCov : ℕ)
  | xdawnFit (xd : ℕ) (epochs : ℕ)
  | xdawnApply (ret : ℕ) (xd : ℕ) (epochs : ℕ)
  | icaCreate (ret : ℕ) (nComponents : ℕ) (randomState : Option ℕ)
  | icaFit (ica : ℕ) (epochs : ℕ)
  | findBadsEog (ret : ℕ) (ica : ℕ) (epochs : ℕ) (chName : String)
  | findBadsMuscle (ret : ℕ) (ica : ℕ) (epochs : ℕ)
  | icaApply (ica : ℕ) (epochs : ℕ) (excludeEog excludeMuscle : ℕ)
  | makeForwardSolution (ret : ℕ) (info : ℕ) (transName : String) (src : ℕ)
      (bem : ℕ) (mindist : ℚ)
  | tfrMorlet (ret : ℕ) (epochs : ℕ) (freqs : FreqSpec) (nCycles : NCycles)
      (returnItc average : Bool) (output : String)
  | csdTfr (ret : ℕ) (tfr : ℕ) (tmin tmax : ℚ)
  | csdGetData (ret : ℕ) (csd : ℕ) (freqIdx : ℕ) (asCov : Bool)
  | covTakeReal (cov : ℕ)
  | makeInverseOperator (ret : ℕ) (info : ℕ) (fwd : ℕ) (cov : ℕ)
  | applyInverseEpochs (ret : ℕ) (epochs : ℕ) (inv : ℕ) (lambda2 : ℚ)
      (method : String)
  | applyInverseTfrEpochs (ret : ℕ) (tfr : ℕ) (inv : ℕ) (lambda2 : ℚ)
      (method : String)
  | plotEpochsImage (epochs : ℕ) (picks : List ℕ) (vmin vmax : ℚ)
  | viewVolStc (ret : ℕ) (stcs : List PyV) (insts : List PyV) (group : GroupArg)
      (freqFirst : Option Bool) (tmin tmax : ℚ)
  | goToExtreme (viewer : ℕ)
  | setCmap (viewer : ℕ) (vmin vmid : ℚ)
  | set3dView (viewer : ℕ) (azimuth elevation distance : ℚ)
  | spawnThread
  | spawnProcess
  | createAsyncTask
  | readCliArgs
  | openNetworkConn (url : String)
  | writeLocalFile (path : String)
deriving Repr

/-! Equality of events is decided through an injective encoding into a tag
and a list of atomic field values (a derived `DecidableEq` for a 56-way
inductive produces one quadratically large matcher; the encoding keeps every
definition linear in the number of constructors). -/

/-- One atomic field value of an event. -/
inductive EvAtom where
  | n (x : ℕ)
  | q (x : ℚ)
  | s (x : String)
  | b (x : Bool)
  | ns (x : List ℕ)
  | ss (x : List String)
  | oq (x : Option ℚ)
  | on (x : Option ℕ)
  | ob (x : Option Bool)
  | fs (x : FreqSpec)
  | nc (x : NCycles)
  | ga (x : GroupArg)
  | pv (x : List PyV)
deriving DecidableEq, Repr

/-- A constructor tag together with the event's fields as atoms. -/
def Ev.encode : Ev → ℕ × List EvAtom
  | .printDoc => (0, [])
  | .printSubject sub => (1, [.n sub])
  | .dataPath ret => (2, [.n ret])
  | .fetchFsaverage ret => (3, [.n ret])
  | .readSourceSpaces ret path => (4, [.n ret, .s path])
  | .readBemSolution ret path => (5, [.n ret, .s path])
  | .makeStandardMontage ret name => (6, [.n ret, .s name])
  | .loadDataEEGBCI ret subject runs updatePath =>
      (7, [.n ret, .n subject, .ns runs, .b updatePath])
  | .readRaw ret fnames runIdx preload =>
      (8, [.n ret, .n fnames, .n runIdx, .b preload])
  | .readRawFif ret path preload => (9, [.n ret, .s path, .b preload])
  | .readEvents ret path => (10, [.n ret, .s path])
  | .concatenateRaws ret parts => (11, [.n ret, .ns parts])
  | .standardize raw => (12, [.n raw])
  | .setMontage raw montage => (13, [.n raw, .n montage])
  | .setBads raw bads => (14, [.n raw, .ss bads])
  | .eventsFromAnnot ret raw => (15, [.n ret, .n raw])
  | .pickTypes ret info => (16, [.n ret, .n info])
  | .filterRaw raw lFreq hFreq design => (17, [.n raw, .q lFreq, .q hFreq, .s design])
  | .filterEpochs epochs lFreq hFreq => (18, [.n epochs, .oq lFreq, .oq hFreq])
  | .makeEpochs ret raw events picks tmin tmax proj preload =>
      (19, [.n ret, .n raw, .n events, .n picks, .q tmin, .q tmax, .b proj, .b preload])
  | .selectCond ret epochs cond => (20, [.n ret, .n epochs, .s cond])
  | .setEegReference epochs => (21, [.n epochs])
  | .getRejectionThreshold ret epochs => (22, [.n ret, .n epochs])
  | .dropBad epochs reject => (23, [.n epochs, .n reject])
  | .decimate inst factor => (24, [.n inst, .n factor])
  | .computeRawCovariance ret raw picks => (25, [.n ret, .n raw, .n picks])
  | .computeCovariance ret epochs tmax => (26, [.n ret, .n epochs, .q tmax])
  | .computeRank ret epochs tol tolKind => (27, [.n ret, .n epochs, .q tol, .s tolKind])
  | .xdawnCreate ret nComponents signalCov => (28, [.n ret, .n nComponents, .n signalCov])
  | .xdawnFit xd epochs => (29, [.n xd, .n epochs])
  | .xdawnApply ret xd epochs => (30, [.n ret, .n xd, .n epochs])
  | .icaCreate ret nComponents randomState =>
      (31, [.n ret, .n nComponents, .on randomState])
  | .icaFit ica epochs => (32, [.n ica, .n epochs])
  | .findBadsEog ret ica epochs chName => (33, [.n ret, .n ica, .n epochs, .s chName])
  | .findBadsMuscle ret ica epochs => (34, [.n ret, .n ica, .n epochs])
  | .icaApply ica epochs excludeEog excludeMuscle =>
      (35, [.n ica, .n epochs, .n excludeEog, .n excludeMuscle])
  | .makeForwardSolution ret info transName src bem mindist =>
      (36, [.n ret, .n info, .s transName, .n src, .n bem, .q mindist])
  | .tfrMorlet ret epochs freqs nCycles returnItc average output =>
      (37, [.n ret, .n epochs, .fs freqs, .nc nCycles, .b returnItc, .b average, .s output])
  | .csdTfr ret tfr tmin tmax => (38, [.n ret, .n tfr, .q tmin, .q tmax])
  | .csdGetData ret csd freqIdx asCov => (39, [.n ret, .n csd, .n freqIdx, .b asCov])
  | .covTakeReal cov => (40, [.n cov])
  | .makeInverseOperator ret info fwd cov => (41, [.n ret, .n info, .n fwd, .n cov])
  | .applyInverseEpochs ret epochs inv lambda2 method =>
      (42, [.n ret, .n epochs, .n inv, .q lambda2, .s method])
  | .applyInverseTfrEpochs ret tfr inv lambda2 method =>
      (43, [.n ret, .n tfr, .n inv, .q lambda2, .s method])
  | .plotEpochsImage epochs picks vmin vmax =>
      (44, [.n epochs, .ns picks, .q vmin, .q vmax])
  | .viewVolStc ret stcs insts group freqFirst tmin tmax =>
      (45, [.n ret, .pv stcs, .pv insts, .ga group, .ob freqFirst, .q tmin, .q tmax])
  | .goToExtreme viewer => (46, [.n viewer])
  | .setCmap viewer vmin vmid => (47, [.n viewer, .q vmin, .q vmid])
  | .set3dView viewer azimuth elevation distance =>
      (48, [.n viewer, .q azimuth, .q elevation, .q distance])
  | .spawnThread => (49, [])
  | .spawnProcess => (50, [])
  | .createAsyncTask => (51, [])
  | .readCliArgs => (52, [])
  | .openNetworkConn url => (53, [.s url])
  | .writeLocalFile path => (54, [.s path])

/-- Partial inverse of `Ev.encode`. -/
def Ev.decode : ℕ × List EvAtom → Option Ev
  | (0, []) => some .printDoc
  | (1, [.n sub]) => some (.printSubject sub)
  | (2, [.n ret]) => some (.dataPath ret)
  | (3, [.n ret]) => some (.fetchFsaverage ret)
  | (4, [.n ret, .s path]) => some (.readSourceSpaces ret path)
  | (5, [.n ret, .s path]) => some (.readBemSolution ret path)
  | (6, [.n ret, .s name]) => some (.makeStandardMontage ret name)
  | (7, [.n ret, .n subject, .ns runs, .b updatePath]) =>
      some (.loadDataEEGBCI ret subject runs updatePath)
  | (8, [.n ret, .n fnames, .n runIdx, .b preload]) =>
      some (.readRaw ret fnames runIdx preload)
  | (9, [.n ret, .s path, .b preload]) => some (.readRawFif ret path preload)
  | (10, [.n ret, .s path]) => some (.readEvents ret path)
  | (11, [.n ret, .ns parts]) => some (.concatenateRaws ret parts)
  | (12, [.n raw]) => some (.standardize raw)
  | (13, [.n raw, .n montage]) => some (.setMontage raw montage)
  | (14, [.n raw, .ss bads]) => some (.setBads raw bads)
  | (15, [.n ret, .n raw]) => some (.eventsFromAnnot ret raw)
  | (16, [.n ret, .n info]) => some (.pickTypes ret info)
  | (17, [.n raw, .q lFreq, .q hFreq, .s design]) =>
      some (.filterRaw raw lFreq hFreq design)
  | (18, [.n epochs, .oq lFreq, .oq hFreq]) =>
      some (.filterEpochs epochs lFreq hFreq)
  | (19, [.n ret, .n raw, .n events, .n picks, .q tmin, .q tmax, .b proj, .b preload]) =>
      some (.makeEpochs ret raw events picks tmin tmax proj preload)
  | (20, [.n ret, .n epochs, .s cond]) => some (.selectCond ret epochs cond)
  | (21, [.n epochs]) => some (.setEegReference epochs)
  | (22, [.n ret, .n epochs]) => some (.getRejectionThreshold ret epochs)
  | (23, [.n epochs, .n reject]) => some (.dropBad epochs reject)
  | (24, [.n inst, .n factor]) => some (.decimate inst factor)
  | (25, [.n ret, .n raw, .n picks]) => some (.computeRawCovariance ret raw picks)
  | (26, [.n ret, .n epochs, .q tmax]) => some (.computeCovariance ret epochs tmax)
  | (27, [.n ret, .n epochs, .q tol, .s tolKind]) =>
      some (.computeRank ret epochs tol tolKind)
  | (28, [.n ret, .n nComponents, .n signalCov]) =>
      some (.xdawnCreate ret nComponents signalCov)
  | (29, [.n xd, .n epochs]) => some (.xdawnFit xd epochs)
  | (30, [.n ret, .n xd, .n epochs]) => some (.xdawnApply ret xd epochs)
  | (31, [.n ret, .n nComponents, .on randomState]) =>
      some (.icaCreate ret nComponents randomState)
  | (32, [.n ica, .n epochs]) => some (.icaFit ica epochs)
  | (33, [.n ret, .n ica, .n epochs, .s chName]) =>
      some (.findBadsEog ret ica epochs chName)
  | (34, [.n ret, .n ica, .n epochs]) => some (.findBadsMuscle ret ica epochs)
  | (35, [.n ica, .n epochs, .n excludeEog, .n excludeMuscle]) =>
      some (.icaApply ica epochs excludeEog excludeMuscle)
  | (36, [.n ret, .n info, .s transName, .n src, .n bem, .q mindist]) =>
      some (.makeForwardSolution ret info transName src bem mindist)
  | (37, [.n ret, .n epochs, .fs freqs, .nc nCycles, .b returnItc, .b average, .s output]) =>
      some (.tfrMorlet ret epochs freqs nCycles returnItc average output)
  | (38, [.n ret, .n tfr, .q tmin, .q tmax]) => some (.csdTfr ret tfr tmin tmax)
  | (39, [.n ret, .n csd, .n freqIdx, .b asCov]) =>
      some (.csdGetData ret csd freqIdx asCov)
  | (40, [.n cov]) => some (.covTakeReal cov)
  | (41, [.n ret, .n info, .n fwd, .n cov]) =>
      some (.makeInverseOperator ret info fwd cov)
  | (42, [.n ret, .n epochs, .n inv, .q lambda2, .s method]) =>
      some (.applyInverseEpochs ret epochs inv lambda2 method)
  | (43, [.n ret, .n tfr, .n inv, .q lambda2, .s method]) =>
      some (.applyInverseTfrEpochs ret tfr inv lambda2 method)
  | (44, [.n epochs, .ns picks, .q vmin, .q vmax]) =>
      some (.plotEpochsImage epochs picks vmin vmax)
  | (45, [.n ret, .pv stcs, .pv insts, .ga group, .ob freqFirst, .q tmin, .q tmax]) =>
      some (.viewVolStc ret stcs insts group freqFirst tmin tmax)
  | (46, [.n viewer]) => some (.goToExtreme viewer)
  | (47, [.n viewer, .q vmin, .q vmid]) => some (.setCmap viewer vmin vmid)
  | (48, [.n viewer, .q azimuth, .q elevation, .q distance]) =>
      some (.set3dView viewer azimuth elevation distance)
  | (49, []) => some .spawnThread
  | (50, []) => some .spawnProcess
  | (51, []) => some .createAsyncTask
  | (52, []) => some .readCliArgs
  | (53, [.s url]) => some (.openNetworkConn url)
  | (54, [.s path]) => some (.writeLocalFile path)
  | _ => none

/-- `Ev.decode` inverts `Ev.encode`, so the encoding is injective. -/
theorem Ev.decode_encode : ∀ e : Ev, Ev.decode (Ev.encode e) = some e := by
  intro e
  cases e <;> rfl

instance : DecidableEq Ev := fun x y =>
  decidable_of_iff (Ev.encode x = Ev.encode y)
    ⟨fun h => by
      have hx := Ev.decode_encode x
      rw [h, Ev.decode_encode y] at hx
      exact ((Option.some.injEq _ _).mp hx).symm,
     fun h => h ▸ rfl⟩

/-! ## Exact rational literals

The scripts' non-integer numeric arguments, written as explicit reduced
fractions (`Rat.mk'`) so that equality of embedded calls evaluates by
kernel reduction; `rat_literal_values` below records the value of each. -/

/-- `-0.1` (`tmin` of the XDAWN script, line 42). -/
def qNegTenth : ℚ := Rat.mk' (-1) 10

/-- `0.3` (`tmax` of the XDAWN script, line 42). -/
def qThreeTenths : ℚ := Rat.mk' 3 10

/-- `tmin - 0.5 = -1.5` (group-study script, line 72). -/
def qNegThreeHalves : ℚ := Rat.mk' (-3) 2

/-- `tmax + 0.5 = 4.5` (group-study script, line 73). -/
def qNineHalves : ℚ := Rat.mk' 9 2

/-- `lambda2 = 1.0 / snr ** 2 = 1/9` (group-study script, line 121). -/
def qOneNinth : ℚ := Rat.mk' 1 9

/-- `tol=1e-6` (group-study script, line 99). -/
def qMicro : ℚ := Rat.mk' 1 1000000

/-- `vmin=0.25` (group-study script, lines 185 and 204). -/
def qQuarter : ℚ := Rat.mk' 1 4

/-- `vmid=0.8` (group-study script, lines 185 and 204). -/
def qFourFifths : ℚ := Rat.mk' 4 5

/-- Each exact literal equals the fraction the script writes. -/
theorem rat_literal_values :
    qNegTenth = -1/10 ∧ qThreeTenths = 3/10 ∧ qNegThreeHalves = -3/2 ∧
    qNineHalves = 9/2 ∧ qOneNinth = 1/9 ∧ qMicro = 1/1000000 ∧
    qQuarter = 1/4 ∧ qFourFifths = 4/5 := by
  refine ⟨?_, ?_, ?_, ?_, ?_, ?_, ?_, ?_⟩ <;>
    simp only [qNegTenth, qThreeTenths, qNegThreeHalves, qNineHalves, qOneNinth,
      qMicro, qQuarter, qFourFifths, Rat.mk'_eq_divInt, Rat.divInt_eq_div] <;>
    norm_num

/-! ## The XDAWN script

`xdawn_denoising.py` is entirely straight-line; its embedding is the literal
sequence of its library calls, with object ids 0, 1, 2, … allocated in binding
order (`data_path` = 0, `raw` = 1, `events` = 2, `picks` = 3, `epochs` = 4,
`epochs["vis_r"]` = 5, `signal_cov` = 6, `xd` = 7, `epochs_denoised` = 8,
`epochs_denoised["vis_r"]` = 9). -/

def xdawnTrace : List Ev :=
  [ -- line 33: print(__doc__)
    .printDoc,
    -- line 35: data_path = sample.data_path()
    .dataPath 0,
    -- line 46: raw = io.read_raw_fif(raw_fname, preload=True)
    .readRawFif 1 "MEG/sample/sample_audvis_filt-0-40_raw.fif" true,
    -- line 47: raw.filter(1, 20, fir_design="firwin")
    .filterRaw 1 1 20 "firwin",
    -- line 48: events = read_events(event_fname)
    .readEvents 2 "MEG/sample/sample_audvis_filt-0-40_raw-eve.fif",
    -- line 50: raw.info["bads"] = ["MEG 2443"]
    .setBads 1 ["MEG 2443"],
    -- line 51: picks = pick_types(raw.info, meg=True, ...)
    .pickTypes 3 1,
    -- lines 53-64: epochs = Epochs(raw, events, event_id, -0.1, 0.3,
    --   proj=False, picks=picks, baseline=None, preload=True)
    .makeEpochs 4 1 2 3 qNegTenth qThreeTenths false true,
    -- line 67: plot_epochs_image(epochs["vis_r"], picks=[230], vmin=-500, vmax=500)
    .selectCond 5 4 "vis_r",
    .plotEpochsImage 5 [230] (-500) 500,
    -- line 74: signal_cov = compute_raw_covariance(raw, picks=picks)
    .computeRawCovariance 6 1 3,
    -- line 77: xd = Xdawn(n_components=2, signal_cov=signal_cov)
    .xdawnCreate 7 2 6,
    -- line 80: xd.fit(epochs)
    .xdawnFit 7 4,
    -- line 86: epochs_denoised = xd.apply(epochs)
    .xdawnApply 8 7 4,
    -- line 89: plot_epochs_image(epochs_denoised["vis_r"], picks=[230], ...)
    .selectCond 9 8 "vis_r",
    .plotEpochsImage 9 [230] (-500) 500 ]

/-! ## The group-study script -/

/-- `fs_dir = mne.datasets.fetch_fsaverage(...)` (line 24). -/
def fsDirId : ℕ := 0

/-- `src = mne.read_source_spaces(...)` (line 29). -/
def srcId : ℕ := 1

/-- `bem = mne.read_bem_solution(...)` (lines 30-32). -/
def bemId : ℕ := 2

/-- `montage = mne.channels.make_standard_montage("standard_1005")` (line 45). -/
def montageId : ℕ := 3

/-- `runs = [6, 10, 14]` (line 39). -/
def groupRuns : List ℕ := [6, 10, 14]

/-- `freqs = np.logspace(np.log10(12), np.log10(30), 9)` (line 102). -/
def groupFreqs : FreqSpec := .logspace 12 30 9

/-- Python's `range(a, b)`. -/
def pyRange (a b : ℕ) : List ℕ := List.range' a (b - a)

/-- The four accumulator lists bound at lines 46-49 and appended to once per
subject. -/
structure Accs where
  stcs_tfr : List PyV
  stcs_epochs : List PyV
  insts_tfr : List PyV
  insts_epochs : List PyV
deriving DecidableEq, Repr

/-- Everything one iteration of the subject loop (lines 50-168) produces: the
updated accumulators, the next fresh object id, the iteration's library-call
trace, and the two successive values of the Python variable `stcs` (bound to
`list()` at line 145 and rebound to the `apply_inverse_tfr_epochs` result at
line 158). -/
structure SubjOut where
  acc : Accs
  next : ℕ
  trace : List Ev
  stcsInit : PyV
  stcsFinal : PyV
deriving DecidableEq, Repr

/-- The per-frequency loop of lines 146-155.  The fold state is
`(inverse_operator, next fresh id, trace so far)`; each iteration rebinds
`baseline_cov` to `baseline_csd.get_data(index=freq_idx, as_cov=True)`, keeps
only its real part, and rebinds `inverse_operator` to a fresh
`make_inverse_operator(epochs.info, fwd, baseline_cov)`.  `inv0` is the value
`inverse_operator` holds when the loop is entered (the time-domain operator of
line 129); `epochsId`, `fwdId` and `csdId` are the ids of `epochs`, `fwd` and
`baseline_csd`. -/
def freqLoop (epochsId fwdId csdId inv0 n : ℕ) : ℕ × ℕ × List Ev :=
  (List.range groupFreqs.size).foldl
    (fun (st : ℕ × ℕ × List Ev) k =>
      let cov := st.2.1
      let inv := st.2.1 + 1
      (inv, st.2.1 + 2,
        st.2.2 ++
          [.csdGetData cov csdId k true,
           .covTakeReal cov,
           .makeInverseOperator inv epochsId fwdId cov]))
    (inv0, n, [])

/-- One iteration of the subject loop (lines 50-168), starting from the
accumulators `acc` with `n0` the next fresh object id.  Fresh ids, in binding
order: `raw_fnames` = n0, the three per-run `read_raw` results = n0+1 … n0+3,
`raw` = n0+4, `events` = n0+5, `picks` = n0+6, `epochs` = n0+7,
`reject` = n0+8, `ica` = n0+9, `eog_idx` = n0+10, `muscle_idx` = n0+11,
`fwd` = n0+12, `rank` = n0+13, `epochs_tfr` = n0+14, `baseline_csd` = n0+15,
the time-domain `baseline_cov` = n0+16 and `inverse_operator` = n0+17, the
`apply_inverse_epochs` result = n0+18, the nine per-frequency covariance and
inverse-operator pairs = n0+19 … n0+36, and the `apply_inverse_tfr_epochs`
result = n0+37. -/
def subjectRun (sub : ℕ) (acc : Accs) (n0 : ℕ) : SubjOut :=
  let tA : List Ev :=
    [ -- line 51: print(f"Computing source estimate for subject {sub}")
      .printSubject sub,
      -- line 52: raw_fnames = load_data(subject=sub, runs=runs, update_path=True)
      .loadDataEEGBCI n0 sub groupRuns true]
    -- lines 53-58: raw = concatenate_raws([read_raw(f, preload=True)
    --   for f in raw_fnames]); load_data returns one file per requested run
    ++ (List.range groupRuns.length).map (fun i => Ev.readRaw (n0 + 1 + i) n0 i true)
    ++ [.concatenateRaws (n0 + 4) [n0 + 1, n0 + 2, n0 + 3],
        -- line 59: mne.datasets.eegbci.standardize(raw)
        .standardize (n0 + 4),
        -- line 60: raw.set_montage(montage, verbose=False)
        .setMontage (n0 + 4) montageId,
        -- line 63: events, _ = mne.events_from_annotations(raw, ...)
        .eventsFromAnnot (n0 + 5) (n0 + 4),
        -- lines 65-67: picks = mne.pick_types(raw.info, ...)
        .pickTypes (n0 + 6) (n0 + 4),
        -- lines 68-78: epochs = mne.Epochs(raw, events, event_id,
        --   tmin - 0.5, tmax + 0.5, proj=True, picks=picks,
        --   baseline=None, preload=True)   (tmin, tmax = -1.0, 4.0)
        .makeEpochs (n0 + 7) (n0 + 4) (n0 + 5) (n0 + 6) qNegThreeHalves qNineHalves true true,
        -- line 80: epochs.set_eeg_reference(projection=True)
        .setEegReference (n0 + 7),
        -- line 83: reject = autoreject.get_rejection_threshold(epochs)
        .getRejectionThreshold (n0 + 8) (n0 + 7),
        -- line 84: epochs.drop_bad(reject=reject)
        .dropBad (n0 + 7) (n0 + 8),
        -- line 86: epochs.filter(l_freq=1, h_freq=None)
        .filterEpochs (n0 + 7) (some 1) none,
        -- line 87: ica = mne.preprocessing.ICA(n_components=15, random_state=11)
        .icaCreate (n0 + 9) 15 (some 11),
        -- line 88: ica.fit(epochs)
        .icaFit (n0 + 9) (n0 + 7),
        -- line 90: eog_idx, scores = ica.find_bads_eog(epochs, ch_name="Fp1")
        .findBadsEog (n0 + 10) (n0 + 9) (n0 + 7) "Fp1",
        -- line 91: muscle_idx, scores = ica.find_bads_muscle(epochs)
        .findBadsMuscle (n0 + 11) (n0 + 9) (n0 + 7),
        -- line 92: ica.apply(epochs, exclude=eog_idx + muscle_idx)
        .icaApply (n0 + 9) (n0 + 7) (n0 + 10) (n0 + 11),
        -- lines 95-97: fwd = mne.make_forward_solution(epochs.info,
        --   trans=trans, src=src, bem=bem, eeg=True, mindist=5.0)
        .makeForwardSolution (n0 + 12) (n0 + 7) "fsaverage" srcId bemId 5,
        -- line 99: rank = mne.compute_rank(epochs, tol=1e-6, tol_kind="relative")
        .computeRank (n0 + 13) (n0 + 7) qMicro "relative",
        -- lines 105-112: epochs_tfr = tfr_morlet(epochs, freqs=freqs,
        --   n_cycles=freqs / 2, return_itc=False, average=False, output="complex")
        .tfrMorlet (n0 + 14) (n0 + 7) groupFreqs (.freqsDiv groupFreqs 2)
          false false "complex",
        -- line 114: baseline_csd = csd_tfr(epochs_tfr, tmin=-1, tmax=0)
        .csdTfr (n0 + 15) (n0 + 14) (-1) 0,
        -- line 116: epochs_tfr.decimate(20)
        .decimate (n0 + 14) 20,
        -- line 124: epochs.decimate(20)
        .decimate (n0 + 7) 20,
        -- line 128: baseline_cov = mne.compute_covariance(epochs, tmax=0)
        .computeCovariance (n0 + 16) (n0 + 7) 0,
        -- lines 129-131: inverse_operator = make_inverse_operator(
        --   epochs.info, fwd, baseline_cov)
        .makeInverseOperator (n0 + 17) (n0 + 7) (n0 + 12) (n0 + 16),
        -- lines 132-141: stcs_epochs.append(apply_inverse_epochs(epochs,
        --   inverse_operator, lambda2 = 1/9, method="MNE", ...))
        .applyInverseEpochs (n0 + 18) (n0 + 7) (n0 + 17) qOneNinth "MNE"]
  -- line 117: insts_tfr.append(epochs_tfr)
  let acc := { acc with insts_tfr := acc.insts_tfr ++ [PyV.obj (n0 + 14)] }
  -- line 125: insts_epochs.append(epochs)
  let acc := { acc with insts_epochs := acc.insts_epochs ++ [PyV.obj (n0 + 7)] }
  -- lines 132-141: stcs_epochs.append(...)
  let acc := { acc with stcs_epochs := acc.stcs_epochs ++ [PyV.obj (n0 + 18)] }
  -- line 145: stcs = list()
  let stcsInit : PyV := .listV []
  -- lines 146-155: the per-frequency loop; `inverse_operator` enters the loop
  -- bound to the time-domain operator n0+17 and leaves rebound to its last
  -- iteration's operator
  let fl := freqLoop (n0 + 7) (n0 + 12) (n0 + 15) (n0 + 17) (n0 + 19)
  -- lines 158-165: stcs = apply_inverse_tfr_epochs(epochs_tfr,
  --   inverse_operator, lambda2 = 1/9, method="MNE", ...)
  let stcsFinal : PyV := .obj (n0 + 37)
  -- line 168: stcs_tfr.append(stcs)
  let acc := { acc with stcs_tfr := acc.stcs_tfr ++ [stcsFinal] }
  { acc := acc,
    next := n0 + 38,
    trace := tA ++ fl.2.2 ++
      [.applyInverseTfrEpochs (n0 + 37) (n0 + 14) fl.1 qOneNinth "MNE"],
    stcsInit := stcsInit,
    stcsFinal := stcsFinal }

/-- The fold state of the subject loop: accumulators, next fresh id, trace so
far. -/
structure LoopSt where
  acc : Accs
  next : ℕ
  trace : List Ev
deriving DecidableEq, Repr

/-- One step of `for sub in range(1, 4)` (line 50). -/
def groupStep (st : LoopSt) (sub : ℕ) : LoopSt :=
  let o := subjectRun sub st.acc st.next
  { acc := o.acc, next := o.next, trace := st.trace ++ o.trace }

/-- The library calls made before the subject loop (lines 24-45). -/
def groupPrefixTrace : List Ev :=
  [.fetchFsaverage fsDirId,
   .readSourceSpaces srcId "bem/fsaverage-vol-5-src.fif",
   .readBemSolution bemId "bem/fsaverage-5120-5120-5120-bem-sol.fif",
   .makeStandardMontage montageId "standard_1005"]

/-- The state after the subject loop: the loop of line 50 runs `groupStep`
over `range(1, 4)` starting from the four empty accumulator lists of
lines 46-49. -/
def groupLoopOut : LoopSt :=
  (pyRange 1 4).foldl groupStep
    { acc := ⟨[], [], [], []⟩, next := 4, trace := groupPrefixTrace }

/-- The viewer calls after the loop (lines 173-206): each of the two viewers
is created by `view_vol_stc` on the aggregate lists and then driven by
`go_to_extreme()`, `set_cmap(vmin=0.25, vmid=0.8)` and
`set_3d_view(azimuth=40, elevation=35, distance=300)`. -/
def groupSuffixTrace (acc : Accs) (n : ℕ) : List Ev :=
  [.viewVolStc n acc.stcs_epochs acc.insts_epochs (.asBool true) (some false)
     (-1) 4,
   .goToExtreme n,
   .setCmap n qQuarter qFourFifths,
   .set3dView n 40 35 300,
   .viewVolStc (n + 1) acc.stcs_tfr acc.insts_tfr .power none (-1) 4,
   .goToExtreme (n + 1),
   .setCmap (n + 1) qQuarter qFourFifths,
   .set3dView (n + 1) 40 35 300]

/-- The complete library-call trace of `volume_stc_group_study.py`. -/
def groupTrace : List Ev :=
  groupLoopOut.trace ++ groupSuffixTrace groupLoopOut.acc groupLoopOut.next

/-! ## Projections over events used to state the claims -/

/-- Is this event an `apply_inverse_tfr_epochs` call? -/
def Ev.isApplyTfr : Ev → Bool
  | .applyInverseTfrEpochs .. => true
  | _ => false

/-- Is this event an `mne.Epochs(...)` construction? -/
def Ev.isMakeEpochsEv : Ev → Bool
  | .makeEpochs .. => true
  | _ => false

/-- Is this event a `view_vol_stc` viewer construction? -/
def Ev.isViewVolStcEv : Ev → Bool
  | .viewVolStc .. => true
  | _ => false

/-- Would this event start a thread, a process or an asynchronous task? -/
def Ev.isConcurrencyCall : Ev → Bool
  | .spawnThread | .spawnProcess | .createAsyncTask => true
  | _ => false

/-- Would this event be raw input/output performed by the script itself
(command-line arguments, a network connection, a file written by the
script)? -/
def Ev.isScriptIO : Ev → Bool
  | .readCliArgs | .openNetworkConn _ | .writeLocalFile _ => true
  | _ => false

/-- Is this event a library call that reads an input file in the library's
native on-disk format? -/
def Ev.isFileRead : Ev → Bool
  | .readRawFif .. | .readEvents .. | .readRaw .. | .readSourceSpaces ..
  | .readBemSolution .. => true
  | _ => false

/-- The object returned by an event that loads a raw continuous recording. -/
def loadRet : Ev → Option ℕ
  | .readRawFif ret _ _ => some ret
  | .readRaw ret _ _ _ => some ret
  | .concatenateRaws ret _ => some ret
  | _ => none

/-- The object a filtering call is applied to. -/
def filterTarget : Ev → Option ℕ
  | .filterRaw raw _ _ _ => some raw
  | .filterEpochs epochs _ _ => some epochs
  | _ => none

/-- The `(epochs, raw)` pair of an epoch-segmentation call: the epochs object
created and the raw recording it segments. -/
def segmentRetRaw : Ev → Option (ℕ × ℕ)
  | .makeEpochs ret raw _ _ _ _ _ _ => some (ret, raw)
  | _ => none

/-- The `(model, data)` pair of a model/transform fitting call. -/
def fitModelData : Ev → Option (ℕ × ℕ)
  | .xdawnFit xd epochs => some (xd, epochs)
  | .icaFit ica epochs => some (ica, epochs)
  | _ => none

/-- The `(model, data, result)` triple of a transform application.
`Xdawn.apply` returns a fresh denoised copy; `ICA.apply` operates on its
input in place and returns it, so there the result is the input object. -/
def applyModelRet : Ev → Option (ℕ × ℕ × ℕ)
  | .xdawnApply ret xd epochs => some (xd, epochs, ret)
  | .icaApply ica epochs _ _ => some (ica, epochs, epochs)
  | _ => none

/-- The objects a visualization call displays. -/
def visualizeTargets : Ev → List PyV
  | .plotEpochsImage epochs _ _ _ => [.obj epochs]
  | .viewVolStc _ stcs insts _ _ _ _ => stcs ++ insts
  | _ => []

/-- The `(returned operator, covariance argument)` pair of a
`make_inverse_operator` call. -/
def makeInvRetCov : Ev → Option (ℕ × ℕ)
  | .makeInverseOperator ret _ _ cov => some (ret, cov)
  | _ => none

/-- The `(returned covariance, frequency index)` pair of a
`baseline_csd.get_data(index=freq_idx, as_cov=True)` call. -/
def csdRetIdx : Ev → Option (ℕ × ℕ)
  | .csdGetData ret _ freqIdx _ => some (ret, freqIdx)
  | _ => none

/-- Every inverse operator passed to an `apply_inverse_epochs` or
`apply_inverse_tfr_epochs` call of the trace. -/
def appliedInvs (t : List Ev) : List ℕ :=
  t.filterMap (fun e => match e with
    | .applyInverseEpochs _ _ inv _ _ => some inv
    | .applyInverseTfrEpochs _ _ inv _ _ => some inv
    | _ => none)

/-- The covariance an inverse operator of the trace was built from. -/
def covOfInv (t : List Ev) (inv : ℕ) : Option ℕ :=
  (t.filterMap makeInvRetCov).lookup inv

/-- The frequency index a covariance of the trace was extracted at. -/
def freqIdxOfCov (t : List Ev) (cov : ℕ) : Option ℕ :=
  (t.filterMap csdRetIdx).lookup cov

/-- The `(freqs, n_cycles, return_itc, average, output)` arguments of a
`tfr_morlet` call. -/
def tfrArgs : Ev → Option (FreqSpec × NCycles × Bool × Bool × String)
  | .tfrMorlet _ _ freqs nCycles returnItc average output =>
      some (freqs, nCycles, returnItc, average, output)
  | _ => none

/-- The `(n_components, random_state)` arguments of an `ICA(...)`
construction. -/
def icaCreateArgs : Ev → Option (ℕ × Option ℕ)
  | .icaCreate _ nComponents randomState => some (nComponents, randomState)
  | _ => none

/-- The epochs object created by an `mne.Epochs(...)` construction. -/
def makeEpochsRet : Ev → Option ℕ
  | .makeEpochs ret _ _ _ _ _ _ _ => some ret
  | _ => none

/-- The `(xd, epochs)` arguments of an `Xdawn.fit` call. -/
def xdFitArgs : Ev → Option (ℕ × ℕ)
  | .xdawnFit xd epochs => some (xd, epochs)
  | _ => none

/-- The `(xd, epochs)` arguments of an `Xdawn.apply` call. -/
def xdApplyArgs : Ev → Option (ℕ × ℕ)
  | .xdawnApply _ xd epochs => some (xd, epochs)
  | _ => none

/-- The navigation, colormap and view-angle calls the trace makes on viewer
`v`, in trace order. -/
def viewerCallsOn (t : List Ev) (v : ℕ) : List Ev :=
  t.filter (fun e => match e with
    | .goToExtreme w => w == v
    | .setCmap w _ _ => w == v
    | .set3dView w _ _ _ => w == v
    | _ => false)

/-- The first fresh object id of the subject-loop iteration that processes
subject `sub` (the global prefix allocates ids 0-3 and every iteration
allocates 38 ids). -/
def subjectBaseId (sub : ℕ) : ℕ := 4 + (sub - 1) * 38

/-! ## Claim theorems (first group) -/

/-- Claim C2: in the group-study script's per-frequency loop (lines 143-155)
the nine `make_inverse_operator` results all rebind the single variable
`inverse_operator`, so each subject iteration calls
`apply_inverse_tfr_epochs` exactly once, as its last library call, after the
loop, and the operator it applies is the one built from the last (ninth,
index 8) frequency's covariance; every inverse operator built from an
earlier frequency's covariance (index ≠ 8) is never passed to any apply
call; and the empty list bound to `stcs` at line 145 is discarded by the
rebinding at line 158, so it never reaches the `stcs_tfr` accumulator. -/
theorem freq_loop_rebinding :
    (∀ (sub : ℕ) (acc : Accs) (n0 : ℕ),
      (subjectRun sub acc n0).trace.countP Ev.isApplyTfr = 1 ∧
      (subjectRun sub acc n0).trace.getLast? =
        some (.applyInverseTfrEpochs (n0 + 37) (n0 + 14) (n0 + 36) qOneNinth "MNE") ∧
      (subjectRun sub acc n0).stcsInit = .listV [] ∧
      (subjectRun sub acc n0).stcsFinal = .obj (n0 + 37) ∧
      (subjectRun sub acc n0).acc.stcs_tfr = acc.stcs_tfr ++ [PyV.obj (n0 + 37)]) ∧
    groupTrace.countP Ev.isApplyTfr = 3 ∧
    (groupTrace.all (fun e => match e with
      | .applyInverseTfrEpochs _ _ inv _ _ =>
          (covOfInv groupTrace inv).bind (freqIdxOfCov groupTrace) == some 8
      | _ => true)) = true ∧
    (groupTrace.all (fun e => match makeInvRetCov e with
      | some (ret, cov) =>
          match freqIdxOfCov groupTrace cov with
          | some k => (k == 8) || !((appliedInvs groupTrace).contains ret)
          | none => true
      | none => true)) = true ∧
    groupLoopOut.acc.stcs_tfr.contains (PyV.listV []) = false :=
  ⟨fun _ _ _ => ⟨rfl, rfl, rfl, rfl, rfl⟩, by decide, by decide, by decide, by decide⟩

/-- Claim C3: the group-study script's subject loop runs over
`range(1, 4) = [1, 2, 3]` in increasing order; every iteration appends
exactly one result to each of the four accumulator lists; after the loop
each list holds one entry per subject in subject order (entry `k` is the
object created in subject `k+1`'s iteration); and the aggregate lists are
then passed to the two `view_vol_stc` interactive-viewer calls. -/
theorem subject_loop_accumulation :
    pyRange 1 4 = [1, 2, 3] ∧
    (∀ (sub : ℕ) (acc : Accs) (n0 : ℕ),
      (subjectRun sub acc n0).acc =
        { stcs_tfr := acc.stcs_tfr ++ [PyV.obj (n0 + 37)],
          stcs_epochs := acc.stcs_epochs ++ [PyV.obj (n0 + 18)],
          insts_tfr := acc.insts_tfr ++ [PyV.obj (n0 + 14)],
          insts_epochs := acc.insts_epochs ++ [PyV.obj (n0 + 7)] }) ∧
    groupLoopOut.acc.stcs_tfr =
      (pyRange 1 4).map (fun s => PyV.obj (subjectBaseId s + 37)) ∧
    groupLoopOut.acc.stcs_epochs =
      (pyRange 1 4).map (fun s => PyV.obj (subjectBaseId s + 18)) ∧
    groupLoopOut.acc.insts_tfr =
      (pyRange 1 4).map (fun s => PyV.obj (subjectBaseId s + 14)) ∧
    groupLoopOut.acc.insts_epochs =
      (pyRange 1 4).map (fun s => PyV.obj (subjectBaseId s + 7)) ∧
    Ev.viewVolStc 118 groupLoopOut.acc.stcs_epochs groupLoopOut.acc.insts_epochs
      (.asBool true) (some false) (-1) 4 ∈ groupTrace ∧
    Ev.viewVolStc 119 groupLoopOut.acc.stcs_tfr groupLoopOut.acc.insts_tfr
      .power none (-1) 4 ∈ groupTrace :=
  ⟨rfl, fun _ _ _ => rfl, by decide, by decide, by decide, by decide,
   by decide, by decide⟩

/-- Claim C5: the XDAWN script constructs exactly one `Epochs` object
(id 4), and the epochs argument of `xd.fit` (line 80) and of `xd.apply`
(line 86) are both that very object — no split between fitting epochs and
application epochs is performed. -/
theorem xdawn_fit_apply_same_epochs :
    xdawnTrace.filterMap makeEpochsRet = [4] ∧
    xdawnTrace.filterMap xdFitArgs = [(7, 4)] ∧
    xdawnTrace.filterMap xdApplyArgs = [(7, 4)] := by
  refine ⟨by decide, by decide, by decide⟩

/-- Claim C6: the group-study script's time-frequency representation is
computed by `tfr_morlet` (once per subject, three times in total), each time
over the nine logarithmically spaced frequencies from 12 Hz to 30 Hz, with
`n_cycles` the frequency array divided by 2, unaveraged (`average=False`),
with complex output (`output="complex"`) and `return_itc=False`. -/
theorem tfr_morlet_parameters :
    groupFreqs = .logspace 12 30 9 ∧
    groupFreqs.size = 9 ∧
    groupTrace.filterMap tfrArgs =
      List.replicate 3
        (groupFreqs, NCycles.freqsDiv groupFreqs 2, false, false, "complex") := by
  refine ⟨rfl, rfl, by decide⟩

set_option maxRecDepth 8000 in
/-- Claim C7: the group-study script creates exactly two viewer objects, and
for each of them the navigation, colormap and view-angle calls made on it
are exactly `go_to_extreme()`, then `set_cmap(vmin=0.25, vmid=0.8)`, then
`set_3d_view(azimuth=40, elevation=35, distance=300)`, in that order. -/
theorem viewer_control_sequence :
    groupTrace.countP Ev.isViewVolStcEv = 2 ∧
    (groupTrace.all (fun e => match e with
      | .viewVolStc v _ _ _ _ _ _ =>
          viewerCallsOn groupTrace v ==
            [.goToExtreme v, .setCmap v qQuarter qFourFifths, .set3dView v 40 35 300]
      | _ => true)) = true := by
  refine ⟨by decide, by decide⟩

/-- Claim C9: neither script reads command-line arguments, opens a network
connection of its own, or writes a file of its own; the file inputs are
exactly the library reads in the library's native formats — the raw
recording file and the event file in the XDAWN script, and the source-space
file, the boundary-element-model solution file and the three per-subject
recording files (one per run in `runs = [6, 10, 14]`) in the group-study
script. -/
theorem io_surface :
    xdawnTrace.countP Ev.isScriptIO = 0 ∧
    groupTrace.countP Ev.isScriptIO = 0 ∧
    xdawnTrace.filter Ev.isFileRead =
      [.readRawFif 1 "MEG/sample/sample_audvis_filt-0-40_raw.fif" true,
       .readEvents 2 "MEG/sample/sample_audvis_filt-0-40_raw-eve.fif"] ∧
    groupTrace.filter Ev.isFileRead =
      [.readSourceSpaces 1 "bem/fsaverage-vol-5-src.fif",
       .readBemSolution 2 "bem/fsaverage-5120-5120-5120-bem-sol.fif",
       .readRaw 5 4 0 true, .readRaw 6 4 1 true, .readRaw 7 4 2 true,
       .readRaw 43 42 0 true, .readRaw 44 42 1 true, .readRaw 45 42 2 true,
       .readRaw 81 80 0 true, .readRaw 82 80 1 true, .readRaw 83 80 2 true] := by
  refine ⟨by decide, by decide, by decide, by decide⟩

/-! ## The claimed pipeline shape (claim C1) -/

/-- Object `d` was produced from object `r` by an `epochs[...]` condition
selection recorded in trace `t`. -/
def derivedFrom (t : List Ev) (d r : ℕ) : Prop :=
  ∃ c, Ev.selectCond d r c ∈ t

/-- Event `e` visualizes the object `res`, either directly or through a
condition selection recorded in `t`. -/
def visualizesFrom (t : List Ev) (res : ℕ) (e : Ev) : Prop :=
  PyV.obj res ∈ visualizeTargets e ∨
    ∃ d, PyV.obj d ∈ visualizeTargets e ∧ derivedFrom t d res

/-- The pipeline shape the specification claims for both scripts: a raw
recording is loaded, then a filter is applied to that recording, then the
recording is segmented into trial-window epochs, then a model/transform is
fitted on those epochs, then the fitted transform is applied to them, then
the result is visualized — six events in increasing trace order, chained by
the data they pass along. -/
def pipelineShape (t : List Ev) : Prop :=
  ∃ i1 i2 i3 i4 i5 i6 r eps m res : ℕ,
    i1 < i2 ∧ i2 < i3 ∧ i3 < i4 ∧ i4 < i5 ∧ i5 < i6 ∧
    (∃ e, t.get? i1 = some e ∧ loadRet e = some r) ∧
    (∃ e, t.get? i2 = some e ∧ filterTarget e = some r) ∧
    (∃ e, t.get? i3 = some e ∧ segmentRetRaw e = some (eps, r)) ∧
    (∃ e, t.get? i4 = some e ∧ fitModelData e = some (m, eps)) ∧
    (∃ e, t.get? i5 = some e ∧ applyModelRet e = some (m, eps, res)) ∧
    (∃ e, t.get? i6 = some e ∧ visualizesFrom t res e)

/-- The pipeline shape the group-study script actually follows: the raw
recording is loaded and segmented into epochs first, and the filter is then
applied to the epochs (line 86 is `epochs.filter`, after `mne.Epochs` at
line 68), before fitting, applying and visualizing. -/
def epochsFilteredShape (t : List Ev) : Prop :=
  ∃ i1 i2 i3 i4 i5 i6 r eps m res : ℕ,
    i1 < i2 ∧ i2 < i3 ∧ i3 < i4 ∧ i4 < i5 ∧ i5 < i6 ∧
    (∃ e, t.get? i1 = some e ∧ loadRet e = some r) ∧
    (∃ e, t.get? i2 = some e ∧ segmentRetRaw e = some (eps, r)) ∧
    (∃ e, t.get? i3 = some e ∧ filterTarget e = some eps) ∧
    (∃ e, t.get? i4 = some e ∧ fitModelData e = some (m, eps)) ∧
    (∃ e, t.get? i5 = some e ∧ applyModelRet e = some (m, eps, res)) ∧
    (∃ e, t.get? i6 = some e ∧ visualizesFrom t res e)

/-- A trace with the claimed pipeline shape contains a load event and a
filter event applied to the very recording loaded. -/
theorem pipelineShape_filters_loaded {t : List Ev} (h : pipelineShape t) :
    ∃ r, r ∈ t.filterMap loadRet ∧ r ∈ t.filterMap filterTarget := by
  obtain ⟨i1, i2, i3, i4, i5, i6, r, eps, m, res, -, -, -, -, -,
    ⟨e1, he1, hl⟩, ⟨e2, he2, hf⟩, -, -, -, -⟩ := h
  exact ⟨r, List.mem_filterMap.mpr ⟨e1, List.get?_mem he1, hl⟩,
    List.mem_filterMap.mpr ⟨e2, List.get?_mem he2, hf⟩⟩

/-- Claim C1, counterexample: the claimed order "load raw, then filter, then
segment into epochs" fails on the group-study script — no filter event of
its trace is ever applied to a loaded raw recording (its only filter call,
`epochs.filter` at line 86, targets the epochs object created at line 68),
so the two scripts do not both follow the claimed pipeline shape. -/
theorem pipeline_order_counterexample :
    ¬ (pipelineShape xdawnTrace ∧ pipelineShape groupTrace) := by
  rintro ⟨-, hg⟩
  obtain ⟨r, hload, hfilt⟩ := pipelineShape_filters_loaded hg
  have hdisj : ∀ x ∈ groupTrace.filterMap filterTarget,
      x ∉ groupTrace.filterMap loadRet := by decide
  exact hdisj r hfilt hload

/-- Claim C1 (amended): the XDAWN script follows the claimed pipeline shape
(load raw, filter the raw, segment into epochs, fit, apply, visualize); the
group-study script follows the same shape except that its filter is applied
to the epochs after segmentation rather than to the raw recording before it
(load raw, segment into epochs, filter the epochs, fit, apply, visualize). -/
theorem pipeline_order_amended :
    pipelineShape xdawnTrace ∧ epochsFilteredShape groupTrace := by
  constructor
  · exact ⟨2, 3, 7, 12, 13, 15, 1, 4, 7, 8,
      by decide, by decide, by decide, by decide, by decide,
      ⟨.readRawFif 1 "MEG/sample/sample_audvis_filt-0-40_raw.fif" true,
        by decide, by decide⟩,
      ⟨.filterRaw 1 1 20 "firwin", by decide, by decide⟩,
      ⟨.makeEpochs 4 1 2 3 qNegTenth qThreeTenths false true,
        by decide, by decide⟩,
      ⟨.xdawnFit 7 4, by decide, by decide⟩,
      ⟨.xdawnApply 8 7 4, by decide, by decide⟩,
      ⟨.plotEpochsImage 9 [230] (-500) 500, by decide,
        Or.inr ⟨9, by decide, "vis_r", by decide⟩⟩⟩
  · exact ⟨9, 14, 18, 20, 23, 175, 8, 11, 13, 11,
      by decide, by decide, by decide, by decide, by decide,
      ⟨.concatenateRaws 8 [5, 6, 7], by decide, by decide⟩,
      ⟨.makeEpochs 11 8 9 10 qNegThreeHalves qNineHalves true true,
        by decide, by decide⟩,
      ⟨.filterEpochs 11 (some 1) none, by decide, by decide⟩,
      ⟨.icaFit 13 11, by decide, by decide⟩,
      ⟨.icaApply 13 11 14 15, by decide, by decide⟩,
      ⟨.viewVolStc 118 [.obj 22, .obj 60, .obj 98] [.obj 11, .obj 49, .obj 87]
          (.asBool true) (some false) (-1) 4,
        by decide, Or.inl (by decide)⟩⟩

/-! ## Exception propagation (claim C4)

Neither script contains a `try/except` statement, so the execution of a
script with possibly-failing library calls is the first-failure run of its
call sequence: `execEvents` executes the calls in order and stops at the
first call an `oracle` makes raise, returning that exception unchanged
together with the calls already executed. -/

/-- No call of `t` raises under `oracle`. -/
def allFine (oracle : Ev → Option String) (t : List Ev) : Bool :=
  t.all (fun e => (oracle e).isNone)

/-- Run the calls of a script in order under `oracle`; `pre` accumulates the
calls already executed.  A raising call stops execution with the exception
message, the raising call, and the calls executed before it. -/
def execEvents (oracle : Ev → Option String) :
    List Ev → List Ev → Except (String × Ev × List Ev) (List Ev)
  | pre, [] => .ok pre
  | pre, e :: rest =>
    match oracle e with
    | some msg => .error (msg, e, pre)
    | none => execEvents oracle (pre ++ [e]) rest

/-- First-failure semantics of a script with no handler: a run that succeeds
executed every call and none raised; a run that fails returns the raising
call's exception unchanged, every call before the raising one executed and
none of them raising, and no call after the raising one executed. -/
def noLocalRecovery (oracle : Ev → Option String) (t : List Ev) : Prop :=
  (∀ done, execEvents oracle [] t = .ok done →
    done = t ∧ allFine oracle t = true) ∧
  (∀ msg e pre, execEvents oracle [] t = .error (msg, e, pre) →
    oracle e = some msg ∧ allFine oracle pre = true ∧ ∃ suf, t = pre ++ e :: suf)

/-- Case analysis of `execEvents`: either no call raises and every call
executes in order, or the trace splits at the first raising call. -/
theorem execEvents_cases (oracle : Ev → Option String) :
    ∀ (t pre : List Ev),
      (execEvents oracle pre t = .ok (pre ++ t) ∧ allFine oracle t = true) ∨
      (∃ a msg e b, t = a ++ e :: b ∧ oracle e = some msg ∧
        allFine oracle a = true ∧
        execEvents oracle pre t = .error (msg, e, pre ++ a)) := by
  intro t
  induction t with
  | nil =>
    intro pre
    exact .inl ⟨by simp [execEvents], rfl⟩
  | cons e rest ih =>
    intro pre
    cases h : oracle e with
    | some msg =>
      refine .inr ⟨[], msg, e, rest, rfl, h, rfl, ?_⟩
      simp [execEvents, h]
    | none =>
      rcases ih (pre ++ [e]) with ⟨h1, h2⟩ | ⟨a, msg, e', b, ht, hm, ha, hx⟩
      · refine .inl ⟨?_, ?_⟩
        · simp only [execEvents, h]
          simpa [List.append_assoc] using h1
        · simp only [allFine, List.all_cons, h, Option.isNone_none,
            Bool.true_and]
          simpa [allFine] using h2
      · refine .inr ⟨e :: a, msg, e', b, by simp [ht], hm, ?_, ?_⟩
        · simp only [allFine, List.all_cons, h, Option.isNone_none,
            Bool.true_and]
          simpa [allFine] using ha
        · simp only [execEvents, h]
          rw [hx]
          simp [List.append_assoc]

/-- Any trace runs with first-failure semantics and no recovery. -/
theorem noLocalRecovery_of (oracle : Ev → Option String) (t : List Ev) :
    noLocalRecovery oracle t := by
  rcases execEvents_cases oracle t [] with ⟨h1, h2⟩ | ⟨a, msg, e, b, ht, hm, ha, hx⟩
  · constructor
    · intro done hd
      rw [h1] at hd
      simp only [List.nil_append] at hd
      cases hd
      exact ⟨rfl, h2⟩
    · intro msg e pre hd
      rw [h1] at hd
      exact absurd hd (by simp)
  · constructor
    · intro done hd
      rw [hx] at hd
      exact absurd hd (by simp)
    · intro msg' e' pre' hd
      rw [hx] at hd
      simp only [List.nil_append, Except.error.injEq, Prod.mk.injEq] at hd
      obtain ⟨rfl, rfl, rfl⟩ := hd
      exact ⟨hm, ha, b, ht⟩

/-- Claim C4: neither script performs local error recovery — under any
assignment of exceptions to library calls, a run of either script that hits
a raising call stops there, with the exception propagated unchanged, only
the preceding calls executed and none of them raising; and a run with no
raising call executes every call of the script. -/
theorem no_local_error_recovery :
    ∀ oracle : Ev → Option String,
      noLocalRecovery oracle xdawnTrace ∧ noLocalRecovery oracle groupTrace :=
  fun oracle =>
    ⟨noLocalRecovery_of oracle xdawnTrace, noLocalRecovery_of oracle groupTrace⟩

set_option maxRecDepth 40000 in
/-- Claim C8: each script is a single synchronous top-to-bottom sequence —
neither trace contains a thread, process or asynchronous-task creation, and
a run with no raising call executes exactly the trace, in program order. -/
theorem single_threaded_execution :
    xdawnTrace.countP Ev.isConcurrencyCall = 0 ∧
    groupTrace.countP Ev.isConcurrencyCall = 0 ∧
    execEvents (fun _ => none) [] xdawnTrace = .ok xdawnTrace ∧
    execEvents (fun _ => none) [] groupTrace = .ok groupTrace := by
  refine ⟨by decide, by decide, rfl, rfl⟩

/-! ## Determinism of the artifact-removal step (claim C10)

`mne.preprocessing.ICA` draws its decomposition's random initialisation from
`random_state`: with `random_state=None` the library pulls fresh entropy from
the run, while a fixed integer seed makes the decomposition a function of the
input data alone.  `LibModel` abstracts the library's (out-of-scope)
numerics; `run entropy` stands for whatever randomness a particular execution
would otherwise draw. -/

/-- Abstract model of the library calls of the artifact-removal step of the
group-study script (lines 87-92): the ICA decomposition computed with a
fixed seed, the decomposition computed from run entropy when no seed is
given, the two artifact-detection calls, and the application of the
exclusion. -/
structure LibModel where
  icaSeeded : ℕ → ℕ → ℕ
  icaUnseeded : ℕ → ℕ → ℕ
  badsEog : ℕ → ℕ → String → List ℕ
  badsMuscle : ℕ → ℕ → List ℕ
  icaCleaned : ℕ → ℕ → List ℕ → ℕ

/-- The fitted ICA decomposition: a fixed `random_state` seed makes it
depend only on the epochs data and the seed; `random_state=None` makes it
depend on the run's entropy. -/
def icaFitResult (lib : LibModel) (entropy data : ℕ)
    (randomState : Option ℕ) : ℕ :=
  match randomState with
  | some seed => lib.icaSeeded data seed
  | none => lib.icaUnseeded data entropy

/-- The artifact-removal step of the group-study script, lines 87-92:
`ICA(n_components=15, random_state=11)` fitted on the epochs, EOG components
found via channel `"Fp1"`, muscle components found, and the union excluded.
Returns the decomposition, the excluded components and the cleaned
epochs. -/
def groupArtifactRemoval (lib : LibModel) (entropy epochsData : ℕ) :
    ℕ × List ℕ × ℕ :=
  let ica := icaFitResult lib entropy epochsData (some 11)
  let eog := lib.badsEog ica epochsData "Fp1"
  let muscle := lib.badsMuscle ica epochsData
  (ica, eog ++ muscle, lib.icaCleaned ica epochsData (eog ++ muscle))

/-- Claim C10: every `ICA` construction of the group-study script passes
`n_components=15` and the fixed seed `random_state=11`, and with a fixed
seed the artifact-removal step is deterministic: whatever entropy two runs
would otherwise draw, identical input epochs yield the same decomposition,
the same excluded components and the same cleaned epochs. -/
theorem ica_fixed_seed_determinism :
    groupTrace.filterMap icaCreateArgs = List.replicate 3 (15, some 11) ∧
    ∀ (lib : LibModel) (entropy1 entropy2 epochsData : ℕ),
      groupArtifactRemoval lib entropy1 epochsData =
        groupArtifactRemoval lib entropy2 epochsData :=
  ⟨by decide, fun _ _ _ _ => rfl⟩
